import Mathlib

/-
Verification of the lookml-generator repository: a shallow embedding of the
schema flattener, field classifier, view assembler, directory emitter and the
explore classes, together with theorems about the claims of the specification.

The repository sources available are generator/explores.py and the test suite
(tests/test_lookml.py, tests/test_spoke.py).  The modules generator/lookml.py,
generator/views.py and generator/spoke.py are referenced by the tests but not
present; their definitions below are modelled from the specification (sections
4.1 to 4.4), constrained by the expected outputs recorded in the test suite.

All string manipulation is implemented over the underlying character lists so
that every definition evaluates by kernel reduction on concrete inputs.
-/

/-- Single quote character, built from its code point so that generated error
messages match the source format duplicate dimension (quote)name(quote). -/
def quoteS : String := String.singleton (Char.ofNat 39)

/-- Modelled from the spec: error message carried by the DuplicateDimension and
DuplicateMeasure errors raised in generator/lookml.py (missing from src); the
format is pinned by tests/test_lookml.py (test_duplicate_dimension and
test_duplicate_measure). -/
def dupMsg (kind nm table : String) : String :=
  "duplicate " ++ kind ++ " " ++ quoteS ++ nm ++ quoteS ++ " for table " ++ quoteS ++ table ++ quoteS

/-- Join a list of strings with a separator, as Python str.join does. -/
def joinSep (sep : String) : List String → String
  | [] => ""
  | [x] => x
  | x :: y :: xs => x ++ sep ++ joinSep sep (y :: xs)

/-- Split a character list at every occurrence of a separator character. -/
def splitOnChar (sep : Char) : List Char → List (List Char)
  | [] => [[]]
  | c :: rest =>
    match splitOnChar sep rest with
    | [] => [[c]]
    | w :: ws => if c = sep then [] :: w :: ws else (c :: w) :: ws

/-- Boolean suffix test on strings via their character lists. -/
def strEndsWith (s pat : String) : Bool := pat.data.isSuffixOf s.data

/-- Drop the last n characters of a string. -/
def dropRightN (s : String) (n : Nat) : String := ⟨s.data.take (s.data.length - n)⟩

/-- Warehouse primitive column types (spec section 3, ColumnSchema); RECORD is
represented structurally by SchemaField.record below. -/
inductive BQType where
  | STRING
  | INTEGER
  | FLOAT
  | BOOLEAN
  | BYTES
  | NUMERIC
  | BIGNUMERIC
  | DATE
  | TIMESTAMP
deriving DecidableEq, Repr

/-- Modelled from the spec (section 4.2 type mapping table) for the missing
generator/lookml.py: STRING, BYTES, BIGNUMERIC map to string; INTEGER, FLOAT,
NUMERIC map to number; BOOLEAN maps to yesno; DATE and TIMESTAMP map to time. -/
def lookerType : BQType → String
  | .STRING => "string"
  | .BYTES => "string"
  | .BIGNUMERIC => "string"
  | .INTEGER => "number"
  | .FLOAT => "number"
  | .NUMERIC => "number"
  | .BOOLEAN => "yesno"
  | .DATE => "time"
  | .TIMESTAMP => "time"

/-- Timeframes of a DATE dimension group (spec section 4.2). -/
def dateTimeframes : List String := ["raw", "date", "week", "month", "quarter", "year"]

/-- Timeframes of a TIMESTAMP dimension group (spec section 4.2). -/
def timestampTimeframes : List String :=
  ["raw", "time", "date", "week", "month", "quarter", "year"]

/-- Capitalize one word: first letter upper case, rest lower case. -/
def capWord (w : String) : String :=
  match w.data with
  | [] => ""
  | c :: cs => ⟨c.toUpper :: cs.map Char.toLower⟩

/-- Humanize a path segment: underscores become spaces and each word is
capitalized, as in the group labels expected by tests/test_lookml.py. -/
def humanize (s : String) : String :=
  joinSep " " ((splitOnChar '_' s.data).map (fun cs => capWord ⟨cs⟩))

/-- Modelled from the spec (section 4.2 naming rule) for the missing
generator/lookml.py: a time-typed field has a trailing date or time suffix
stripped from its declared name, as pinned by tests/test_lookml.py
(parsed_timestamp becomes parsed, parsed_first_run_date becomes
parsed_first_run). -/
def stripTimeSuffix (s : String) : String :=
  if strEndsWith s "_timestamp" then dropRightN s 10
  else if strEndsWith s "_date" then dropRightN s 5
  else if strEndsWith s "_time" then dropRightN s 5
  else s

/-- Group label of a nested field: the ancestor segments humanized and joined
with a space (spec section 4.2). -/
def groupLabelOf (path : List String) : String :=
  joinSep " " (path.dropLast.map humanize)

/-- Modelled from the spec (section 4.2) for the missing generator/lookml.py:
identity fields emitted as hidden dimensions are client_id at the top level,
client_id nested under client_info, and document_id at the top level, as pinned
by tests/test_lookml.py. -/
def hiddenPaths : List (List String) :=
  [["client_id"], ["client_info", "client_id"], ["document_id"]]

/-- One generated LookML field declaration (dimension or dimension group),
mirroring the dictionary keys exercised by tests/test_lookml.py; an absent key
is None. -/
structure GeneratedDim where
  name : String
  sql : String
  hidden : Option String := none
  type : Option String := none
  map_layer_name : Option String := none
  group_label : Option String := none
  group_item_label : Option String := none
  timeframes : Option (List String) := none
  convert_tz : Option String := none
  datatype : Option String := none
deriving DecidableEq, Repr

/-- Modelled from the spec (section 4.2, Field Classifier) for the missing
generator/lookml.py: map a flattened field (root-to-leaf path of names plus
primitive type) to its LookML declaration.  Time-typed fields become dimension
groups with fixed timeframes and a stripped name; identity paths become hidden
dimensions; a field whose leaf segment is country carries map_layer_name
countries; a field with at least one record ancestor carries group labels. -/
def genDimension (path : List String) (t : BQType) : GeneratedDim :=
  if lookerType t = "time" then
    { name := stripTimeSuffix (joinSep "__" path)
      sql := "${TABLE}." ++ joinSep "." path
      type := some "time"
      timeframes := some (if t = .DATE then dateTimeframes else timestampTimeframes)
      convert_tz := if t = .DATE then some "no" else none
      datatype := if t = .DATE then some "date" else none
      group_label := if 2 ≤ path.length then some (groupLabelOf path) else none
      group_item_label := if 2 ≤ path.length then some (humanize (path.getLastD "")) else none }
  else if path ∈ hiddenPaths then
    { name := joinSep "__" path
      sql := "${TABLE}." ++ joinSep "." path
      hidden := some "yes" }
  else
    { name := joinSep "__" path
      sql := "${TABLE}." ++ joinSep "." path
      type := some (lookerType t)
      map_layer_name := if path.getLastD "" = "country" then some "countries" else none
      group_label := if 2 ≤ path.length then some (groupLabelOf path) else none
      group_item_label := if 2 ≤ path.length then some (humanize (path.getLastD "")) else none }

mutual

/-- A column of a warehouse table schema: a typed leaf or a RECORD with
children (spec section 3, ColumnSchema). -/
inductive SchemaField where
  | leaf : String → BQType → SchemaField
  | record : String → SchemaFields → SchemaField

/-- Ordered sequence of sibling schema columns. -/
inductive SchemaFields where
  | nil : SchemaFields
  | cons : SchemaField → SchemaFields → SchemaFields

end

mutual

/-- Modelled from the spec (section 4.1, Schema Flattener) for the missing
generator/lookml.py: flatten one column under an ancestor path, recursing into
records in schema order. -/
def flattenField (pre : List String) : SchemaField → List (List String × BQType)
  | .leaf n t => [(pre ++ [n], t)]
  | .record n fs => flattenFields (pre ++ [n]) fs

/-- Flatten a sequence of sibling columns, preserving schema order. -/
def flattenFields (pre : List String) : SchemaFields → List (List String × BQType)
  | .nil => []
  | .cons f fs => flattenField pre f ++ flattenFields pre fs

end

/-- Declared names of all field declarations generated from a schema, in
generation order. -/
def dimDeclaredNames (schema : SchemaFields) : List String :=
  (flattenFields [] schema).map (fun e => (genDimension e.1 e.2).name)


/-- First duplicate in a name stream relative to already seen names, skipping
duplicates of the name submission, mirroring the dimension dedup pass. -/
def firstDupDim (seen : List String) : List String → Option String
  | [] => none
  | n :: ns =>
    if n ∈ seen then
      if n = "submission" then firstDupDim seen ns else some n
    else firstDupDim (seen ++ [n]) ns

/-- First duplicate in a name stream relative to already seen names. -/
def firstDupSimple (seen : List String) : List String → Option String
  | [] => none
  | n :: ns => if n ∈ seen then some n else firstDupSimple (seen ++ [n]) ns

/-- Modelled from the spec (section 4.3) and tests/test_lookml.py for the
missing generator/lookml.py: add one generated declaration to the accumulated
view fields; a second declaration with an already declared name raises
DuplicateDimension, except that a duplicate of the submission dimension group
(a table holding both submission_timestamp and submission_date) is ignored,
keeping the earlier declaration, as pinned by test_lookml. -/
def insertDim (table : String) (acc : List GeneratedDim) (d : GeneratedDim) :
    Except String (List GeneratedDim) :=
  if d.name ∈ acc.map GeneratedDim.name then
    if d.name = "submission" then .ok acc
    else .error (dupMsg "dimension" d.name table)
  else .ok (acc ++ [d])

/-- Fold insertDim over a stream of declarations, stopping at the first error. -/
def insertDims (table : String) (acc : List GeneratedDim) :
    List GeneratedDim → Except String (List GeneratedDim)
  | [] => .ok acc
  | d :: ds =>
    match insertDim table acc d with
    | .error e => .error e
    | .ok acc2 => insertDims table acc2 ds

/-- Modelled from the spec (sections 4.1 to 4.3) for the missing
generator/lookml.py: flatten the table schema, classify every leaf and collect
the declarations, failing fast on the first duplicate name. -/
def generateDimensions (table : String) (schema : SchemaFields) :
    Except String (List GeneratedDim) :=
  insertDims table [] ((flattenFields [] schema).map (fun e => genDimension e.1 e.2))

/-- A generated LookML measure. -/
structure Measure where
  name : String
  type : String
  sql : Option String := none
deriving DecidableEq, Repr

/-- The ping_count measure: a plain count with no SQL expression. -/
def pingCountMeasure : Measure := { name := "ping_count", type := "count" }

/-- Modelled from the spec (section 4.2) and tests/test_lookml.py for the
missing generator/lookml.py: the measure derived from one dimension.  An
identity dimension (client_id at top level or under client_info) derives the
clients count_distinct measure over that dimension; the document_id dimension
derives the ping_count count measure; other dimensions derive no measure. -/
def measureForDim (d : GeneratedDim) : Option Measure :=
  if d.name = "client_id" ∨ d.name = "client_info__client_id" then
    some { name := "clients", type := "count_distinct", sql := some ("$\x7b" ++ d.name ++ "\x7d") }
  else if d.name = "document_id" then
    some pingCountMeasure
  else none

/-- Measures derived from the generated dimensions, in dimension order. -/
def measureStream (dims : List GeneratedDim) : List Measure := dims.filterMap measureForDim

/-- Add one measure to the accumulated measures; a second measure with an
already declared name raises DuplicateMeasure. -/
def insertMeasure (table : String) (acc : List Measure) (m : Measure) :
    Except String (List Measure) :=
  if m.name ∈ acc.map Measure.name then .error (dupMsg "measure" m.name table)
  else .ok (acc ++ [m])

/-- Fold insertMeasure over a measure stream, stopping at the first error. -/
def insertMeasures (table : String) (acc : List Measure) :
    List Measure → Except String (List Measure)
  | [] => .ok acc
  | m :: ms =>
    match insertMeasure table acc m with
    | .error e => .error e
    | .ok acc2 => insertMeasures table acc2 ms

/-- Modelled from the spec (section 4.3) for the missing generator/lookml.py:
generate the measures of a view from its dimensions, failing fast on the first
duplicate measure name. -/
def generateMeasures (table : String) (dims : List GeneratedDim) :
    Except String (List Measure) :=
  insertMeasures table [] (measureStream dims)

/-- One allowed value of a channel parameter: a display label and the fully
qualified table name. -/
structure AllowedValue where
  label : String
  value : String
deriving DecidableEq, Repr

/-- A LookML view parameter. -/
structure Parameter where
  name : String
  type : String
  allowed_values : List AllowedValue
deriving DecidableEq, Repr

/-- Modelled from the spec (section 4.3) for the missing generator/lookml.py:
the SQL table reference and optional channel parameter of a view.  A single
backing table is embedded backtick-quoted; several channel tables become a
channel parameter of type unquoted with one allowed value per channel (label
the capitalized channel, value the table) and a templated table reference. -/
def viewTableSql (tables : List (String × String)) : String × Option (List Parameter) :=
  match tables with
  | [(_, t)] => ("`" ++ t ++ "`", none)
  | _ =>
    ("`{% parameter channel %}`",
      some [{ name := "channel", type := "unquoted",
              allowed_values := tables.map (fun ct => { label := capWord ct.1, value := ct.2 }) }])

/-- A generated LookML view, mirroring the dictionary keys exercised by
tests/test_lookml.py. -/
structure View where
  name : String
  parameters : Option (List Parameter) := none
  sql_table_name : String
  dimensions : List GeneratedDim
  dimension_groups : List GeneratedDim
  measures : List Measure
deriving DecidableEq, Repr

/-- A declaration is a dimension group exactly when it carries timeframes. -/
def GeneratedDim.isTimeGroup (d : GeneratedDim) : Bool := d.timeframes.isSome

/-- Fully qualified name of the first backing table, whose schema is fetched
and which names the view in error messages. -/
def firstTableName (tables : List (String × String)) : String :=
  match tables with
  | [] => ""
  | (_, t) :: _ => t

/-- Modelled from the spec (section 4.3, View Assembler) for the missing
generator/lookml.py: assemble one view from its backing channel tables and the
schema of the first table, splitting plain dimensions from dimension groups. -/
def generateView (vname : String) (tables : List (String × String)) (schema : SchemaFields) :
    Except String View :=
  match generateDimensions (firstTableName tables) schema with
  | .error e => .error e
  | .ok dims =>
    match generateMeasures (firstTableName tables) dims with
    | .error e => .error e
    | .ok ms =>
      .ok { name := vname
            parameters := (viewTableSql tables).2
            sql_table_name := (viewTableSql tables).1
            dimensions := dims.filter (fun d => !d.isTimeGroup)
            dimension_groups := dims.filter (fun d => d.isTimeGroup)
            measures := ms }

deriving instance DecidableEq for Except

/-- Schema of the table mozdata.custom.baseline as mocked in
tests/test_lookml.py. -/
def customSchema : SchemaFields :=
  .cons (.leaf "client_id" .STRING)
    (.cons (.leaf "country" .STRING)
      (.cons (.leaf "document_id" .STRING) .nil))


/-- Schema of the table mozdata.glean_app.baseline as mocked in
tests/test_lookml.py. -/
def gleanSchema : SchemaFields :=
  .cons (.record "client_info"
          (.cons (.leaf "client_id" .STRING)
            (.cons (.leaf "parsed_first_run_date" .DATE) .nil)))
    (.cons (.record "metadata"
            (.cons (.record "geo" (.cons (.leaf "country" .STRING) .nil))
              (.cons (.record "header"
                      (.cons (.leaf "date" .STRING)
                        (.cons (.leaf "parsed_date" .TIMESTAMP) .nil))) .nil)))
      (.cons (.leaf "parsed_timestamp" .TIMESTAMP)
        (.cons (.leaf "submission_timestamp" .TIMESTAMP)
          (.cons (.leaf "submission_date" .DATE)
            (.cons (.leaf "test_bignumeric" .BIGNUMERIC)
              (.cons (.leaf "test_bool" .BOOLEAN)
                (.cons (.leaf "test_bytes" .BYTES)
                  (.cons (.leaf "test_float64" .FLOAT)
                    (.cons (.leaf "test_int64" .INTEGER)
                      (.cons (.leaf "test_numeric" .NUMERIC)
                        (.cons (.leaf "test_string" .STRING) .nil)))))))))))

/-- Channel tables backing the glean-app baseline view in tests/test_lookml.py. -/
def gleanTables : List (String × String) :=
  [("release", "mozdata.glean_app.baseline"), ("beta", "mozdata.glean_app_beta.baseline")]


/-- A file system state: the set of existing directories and a map from file
paths to contents, each path an ordered list of segments. -/
structure FS where
  dirs : List (List String)
  files : List (List String × String)
deriving DecidableEq, Repr

/-- The empty file system. -/
def FS.emptyFS : FS := { dirs := [], files := [] }

/-- Look up the content of a file by path. -/
def lookupFile : List (List String × String) → List String → Option String
  | [], _ => none
  | (q, c) :: rest, p => if q = p then some c else lookupFile rest p

/-- Write or overwrite one file in a file association list. -/
def setFile : List (List String × String) → List String → String → List (List String × String)
  | [], p, c => [(p, c)]
  | (q, c0) :: rest, p, c => if q = p then (q, c) :: rest else (q, c0) :: setFile rest p c

/-- Create a directory if it does not already exist, leaving everything else in
place (the os.makedirs exist_ok behaviour relied on by tests/test_spoke.py). -/
def FS.mkdirIfAbsent (fs : FS) (p : List String) : FS :=
  if p ∈ fs.dirs then fs else { dirs := fs.dirs ++ [p], files := fs.files }

/-- Write one file, overwriting any existing content. -/
def FS.writeFileAt (fs : FS) (p : List String) (c : String) : FS :=
  { dirs := fs.dirs, files := setFile fs.files p c }

/-- Modelled from the spec (section 4.4) for the missing generator/spoke.py:
content of the per-namespace model file, holding the fixed connection, the
canonical display label and the fixed include globs, as pinned by
tests/test_spoke.py (test_generate_model). -/
def modelContent (ns label : String) : String :=
  "connection: \"telemetry\"\nlabel: \"" ++ label ++ "\"\n" ++
    "include: \"//looker-hub/" ++ ns ++ "/explores/*\"\n" ++
    "include: \"//looker-hub/" ++ ns ++ "/dashboards/*\"\n" ++
    "include: \"views/*\"\ninclude: \"explores/*\"\ninclude: \"dashboards/*\"\n"

/-- The four directories created for one namespace. -/
def nsDirs (root : List String) (ns : String) : List (List String) :=
  [root ++ [ns], root ++ [ns, "views"], root ++ [ns, "explores"], root ++ [ns, "dashboards"]]

/-- The path of the model file of one namespace. -/
def nsModelPath (root : List String) (ns : String) : List String :=
  root ++ [ns, ns ++ ".model.lkml"]

/-- Modelled from the spec (section 4.4, Directory/Model Emitter) for the
missing generator/spoke.py: create the directory tree of one namespace
(views, explores, dashboards) idempotently and regenerate its model file. -/
def generateNamespaceDir (root : List String) (fs : FS) (ns : String × String) : FS :=
  (((((fs.mkdirIfAbsent (root ++ [ns.1])).mkdirIfAbsent
        (root ++ [ns.1, "views"])).mkdirIfAbsent
        (root ++ [ns.1, "explores"])).mkdirIfAbsent
        (root ++ [ns.1, "dashboards"])).writeFileAt
        (nsModelPath root ns.1)) (modelContent ns.1 ns.2)

/-- Modelled from the spec (section 4.4) for the missing generator/spoke.py:
generate_directories walks the namespaces in order, building each tree. -/
def generate_directories (namespaces : List (String × String)) (root : List String) (fs : FS) :
    FS :=
  namespaces.foldl (generateNamespaceDir root) fs

/-- Model file paths written for a namespace mapping. -/
def modelFilePaths (namespaces : List (String × String)) (root : List String) :
    List (List String) :=
  namespaces.map (fun ns => nsModelPath root ns.1)


/-- A view as consumed by generator/explores.py: its name and its view type
tag.  Modelled from the spec for the missing generator/views.py, which the
real explores.py imports; only these two attributes are used. -/
structure View0 where
  name : String
  view_type : String
deriving DecidableEq, Repr

/-- Modelled from the spec for the missing generator/views.py: the type tag of
PingView, matching the ping_view view type used throughout the tests. -/
def PingView.viewTypeTag : String := "ping_view"

/-- The Python classes of generator/explores.py: the Explore base class and
its two subclasses. -/
inductive ExploreClass where
  | base
  | ping
  | growthAccounting
deriving DecidableEq, Repr

/-- An explore instance of generator/explores.py: the runtime class together
with the three dataclass fields name, type and views (the views dict as an
association list). -/
structure ExploreObj where
  cls : ExploreClass
  name : String
  type : String
  views : List (String × String)
deriving DecidableEq, Repr

/-- The dictionary value produced by Explore.to_dict for one explore: the keys
type and views. -/
structure ExploreDefn where
  type : String
  views : List (String × String)
deriving DecidableEq, Repr

/-- Embeds Explore.to_dict (generator/explores.py lines 18 to 20): a pair of
the name and the {type, views} definition. -/
def ExploreObj.to_dict (e : ExploreObj) : String × ExploreDefn :=
  (e.name, { type := e.type, views := e.views })

/-- Look up a key in an association list, as a Python dict subscript. -/
def assocLookup : List (String × String) → String → Option String
  | [], _ => none
  | (k, v) :: rest, key => if k = key then some v else assocLookup rest key

/-- The result dictionary of PingExplore.to_lookml. -/
structure PingLookml where
  name : String
  view_name : String
deriving DecidableEq, Repr

/-- Embeds to_lookml dispatch of generator/explores.py: PingExplore overrides
it (lines 36 to 41) returning the name and base view; Explore and
GrowthAccountingExplore leave the base implementation (lines 22 to 24), which
raises NotImplementedError, modelled as an error result. -/
def ExploreObj.to_lookml (e : ExploreObj) : Except String PingLookml :=
  match e.cls with
  | .ping =>
    match assocLookup e.views "base_view" with
    | some v => .ok { name := e.name, view_name := v }
    | none => .error "KeyError: base_view"
  | .base => .error "NotImplementedError: Only implemented in subclasses"
  | .growthAccounting => .error "NotImplementedError: Only implemented in subclasses"

/-- Embeds PingExplore.from_views (generator/explores.py lines 43 to 48): one
PingExplore per view whose view_type is the PingView type tag. -/
def PingExplore.from_views : List View0 → List ExploreObj
  | [] => []
  | v :: vs =>
    (if v.view_type = PingView.viewTypeTag then
      [{ cls := .ping, name := v.name, type := "ping_explore",
         views := [("base_view", v.name)] }]
    else []) ++ PingExplore.from_views vs

/-- Embeds PingExplore.from_dict (generator/explores.py lines 50 to 53). -/
def PingExplore.from_dict (nm : String) (defn : ExploreDefn) : ExploreObj :=
  { cls := .ping, name := nm, type := "ping_explore", views := defn.views }

/-- The fixed explore produced by GrowthAccountingExplore.from_views. -/
def growthAccountingFixed : ExploreObj :=
  { cls := .growthAccounting, name := "growth_accounting",
    type := "growth_accounting_explore", views := [("base_view", "growth_accounting")] }

/-- Embeds GrowthAccountingExplore.from_views (generator/explores.py lines 59
to 72): one fixed explore per view literally named growth_accounting. -/
def GrowthAccountingExplore.from_views : List View0 → List ExploreObj
  | [] => []
  | v :: vs =>
    (if v.name = "growth_accounting" then [growthAccountingFixed] else []) ++
      GrowthAccountingExplore.from_views vs

/-- Embeds from_dict dispatch of generator/explores.py: PingExplore overrides
it; Explore and GrowthAccountingExplore leave the base implementation (lines
26 to 29), which raises NotImplementedError. -/
def Explore.from_dict (c : ExploreClass) (nm : String) (defn : ExploreDefn) :
    Except String ExploreObj :=
  match c with
  | .ping => .ok (PingExplore.from_dict nm defn)
  | .base => .error "NotImplementedError: Only implemented in subclasses"
  | .growthAccounting => .error "NotImplementedError: Only implemented in subclasses"

/-- Schema of the table mozdata.fail.duplicate_dimension as mocked in
tests/test_lookml.py: parsed_timestamp and parsed_date both declare the
dimension group parsed. -/
def duplicateDimSchema : SchemaFields :=
  .cons (.leaf "parsed_timestamp" .TIMESTAMP) (.cons (.leaf "parsed_date" .DATE) .nil)

/-- Schema of the table mozdata.fail.duplicate_measure as mocked in
tests/test_lookml.py: client_info.client_id and client_id both derive the
clients measure. -/
def duplicateMeasureSchema : SchemaFields :=
  .cons (.record "client_info" (.cons (.leaf "client_id" .STRING) .nil))
    (.cons (.leaf "client_id" .STRING) .nil)

/-- Dimensions generated from the duplicate_measure table schema. -/
def duplicateMeasureDims : List GeneratedDim :=
  (flattenFields [] duplicateMeasureSchema).map (fun e => genDimension e.1 e.2)

/-- A table holding both submission_timestamp and submission_date, as inside
the mozdata.glean_app.baseline schema of tests/test_lookml.py: both columns
declare the dimension group name submission. -/
def submissionSchema : SchemaFields :=
  .cons (.leaf "submission_timestamp" .TIMESTAMP) (.cons (.leaf "submission_date" .DATE) .nil)

/-- The expected baseline view of namespace custom in tests/test_lookml.py. -/
def customExpectedView : View :=
  { name := "baseline"
    parameters := none
    sql_table_name := "`mozdata.custom.baseline`"
    dimensions :=
      [{ name := "client_id", sql := "${TABLE}.client_id", hidden := some "yes" },
       { name := "country", sql := "${TABLE}.country", type := some "string",
         map_layer_name := some "countries" },
       { name := "document_id", sql := "${TABLE}.document_id", hidden := some "yes" }]
    dimension_groups := []
    measures :=
      [{ name := "clients", type := "count_distinct", sql := some "${client_id}" },
       { name := "ping_count", type := "count" }] }

/-- The expected baseline view of namespace glean-app in tests/test_lookml.py:
note the measures list holds only clients, with no ping_count. -/
def gleanExpectedView : View :=
  { name := "baseline"
    parameters := some
      [{ name := "channel", type := "unquoted",
         allowed_values :=
           [{ label := "Release", value := "mozdata.glean_app.baseline" },
            { label := "Beta", value := "mozdata.glean_app_beta.baseline" }] }]
    sql_table_name := "`{% parameter channel %}`"
    dimensions :=
      [{ name := "client_info__client_id", sql := "${TABLE}.client_info.client_id",
         hidden := some "yes" },
       { name := "metadata__geo__country", sql := "${TABLE}.metadata.geo.country",
         type := some "string", map_layer_name := some "countries",
         group_label := some "Metadata Geo", group_item_label := some "Country" },
       { name := "metadata__header__date", sql := "${TABLE}.metadata.header.date",
         type := some "string", group_label := some "Metadata Header",
         group_item_label := some "Date" },
       { name := "test_bignumeric", sql := "${TABLE}.test_bignumeric", type := some "string" },
       { name := "test_bool", sql := "${TABLE}.test_bool", type := some "yesno" },
       { name := "test_bytes", sql := "${TABLE}.test_bytes", type := some "string" },
       { name := "test_float64", sql := "${TABLE}.test_float64", type := some "number" },
       { name := "test_int64", sql := "${TABLE}.test_int64", type := some "number" },
       { name := "test_numeric", sql := "${TABLE}.test_numeric", type := some "number" },
       { name := "test_string", sql := "${TABLE}.test_string", type := some "string" }]
    dimension_groups :=
      [{ name := "client_info__parsed_first_run",
         sql := "${TABLE}.client_info.parsed_first_run_date",
         type := some "time",
         timeframes := some ["raw", "date", "week", "month", "quarter", "year"],
         convert_tz := some "no", datatype := some "date",
         group_label := some "Client Info",
         group_item_label := some "Parsed First Run Date" },
       { name := "metadata__header__parsed",
         sql := "${TABLE}.metadata.header.parsed_date",
         type := some "time",
         timeframes := some ["raw", "time", "date", "week", "month", "quarter", "year"],
         group_label := some "Metadata Header",
         group_item_label := some "Parsed Date" },
       { name := "parsed", sql := "${TABLE}.parsed_timestamp",
         type := some "time",
         timeframes := some ["raw", "time", "date", "week", "month", "quarter", "year"] },
       { name := "submission", sql := "${TABLE}.submission_timestamp",
         type := some "time",
         timeframes := some ["raw", "time", "date", "week", "month", "quarter", "year"] }]
    measures :=
      [{ name := "clients", type := "count_distinct",
         sql := some "${client_info__client_id}" }] }

/-- C2: a TIMESTAMP column always classifies to a dimension group of type time
with exactly the seven timeframes raw, time, date, week, month, quarter, year;
a DATE column classifies to a dimension group of type time with exactly the six
timeframes raw, date, week, month, quarter, year, and additionally carries
convert_tz no and datatype date. -/
theorem claim_C2 (path : List String) :
    (genDimension path .TIMESTAMP).type = some "time" ∧
    (genDimension path .TIMESTAMP).timeframes =
      some ["raw", "time", "date", "week", "month", "quarter", "year"] ∧
    (genDimension path .TIMESTAMP).convert_tz = none ∧
    (genDimension path .DATE).type = some "time" ∧
    (genDimension path .DATE).timeframes =
      some ["raw", "date", "week", "month", "quarter", "year"] ∧
    (genDimension path .DATE).convert_tz = some "no" ∧
    (genDimension path .DATE).datatype = some "date" := by
  refine ⟨?_, ?_, ?_, ?_, ?_, ?_, ?_⟩ <;>
    simp [genDimension, lookerType, dateTimeframes, timestampTimeframes]

/-- C4: generating the view of the custom namespace (single table
mozdata.custom.baseline with STRING columns client_id, country, document_id)
succeeds and yields exactly the hidden client_id dimension, the country string
dimension tagged map_layer_name countries, the hidden document_id dimension,
the clients count_distinct measure over client_id and the ping_count count
measure, every dimension SQL referencing TABLE dot column. -/
theorem claim_C4 :
    generateView "baseline" [("release", "mozdata.custom.baseline")] customSchema =
      .ok customExpectedView := by decide

/-- C3: a view backed by exactly one table embeds the backtick-quoted table
name and emits no parameters; a view backed by two or more channel tables
emits a channel parameter of type unquoted with one allowed value per channel
(label the capitalized channel, value the table, in the given order) and the
templated table reference. -/
theorem claim_C3 :
    (∀ ch t : String, viewTableSql [(ch, t)] = ("`" ++ t ++ "`", none)) ∧
    (∀ tables : List (String × String), 2 ≤ tables.length →
      viewTableSql tables =
        ("`{% parameter channel %}`",
          some [{ name := "channel", type := "unquoted",
                  allowed_values :=
                    tables.map (fun ct => { label := capWord ct.1, value := ct.2 }) }])) := by
  constructor
  · intro ch t; rfl
  · intro tables h
    match tables with
    | [] => simp at h
    | [(ch, t)] => simp at h
    | a :: b :: rest => rfl

/-- Witness for C3 at the two table lists of tests/test_lookml.py. -/
theorem claim_C3_witness :
    viewTableSql [("release", "mozdata.custom.baseline")] =
      ("`mozdata.custom.baseline`", none) ∧
    viewTableSql gleanTables =
      ("`{% parameter channel %}`",
        some [{ name := "channel", type := "unquoted",
                allowed_values :=
                  [{ label := "Release", value := "mozdata.glean_app.baseline" },
                   { label := "Beta", value := "mozdata.glean_app_beta.baseline" }] }]) := by
  constructor
  · exact claim_C3.1 "release" "mozdata.custom.baseline"
  · rw [claim_C3.2 gleanTables (by decide)]; decide

/-- C8: GrowthAccountingExplore.from_views yields exactly one explore per view
literally named growth_accounting, each equal to the fixed
growth_accounting explore, and nothing for any other view; PingExplore
from_views yields exactly one PingExplore per view of ping type, named after
the view with base_view bound to it. -/
theorem claim_C8 (vs : List View0) :
    GrowthAccountingExplore.from_views vs =
      (vs.filter (fun v => v.name == "growth_accounting")).map
        (fun _ => growthAccountingFixed) ∧
    PingExplore.from_views vs =
      (vs.filter (fun v => v.view_type == PingView.viewTypeTag)).map
        (fun v => { cls := .ping, name := v.name, type := "ping_explore",
                    views := [("base_view", v.name)] }) := by
  constructor
  · induction vs with
    | nil => rfl
    | cons v vs ih =>
      by_cases h : v.name = "growth_accounting" <;>
        simp [GrowthAccountingExplore.from_views, List.filter_cons, beq_iff_eq, h, ih]
  · induction vs with
    | nil => rfl
    | cons v vs ih =>
      by_cases h : v.view_type = PingView.viewTypeTag <;>
        simp [PingExplore.from_views, List.filter_cons, beq_iff_eq, h, ih]

/-- C9: on every PingExplore whose type field is ping_explore, from_dict is a
left inverse of to_dict. -/
theorem claim_C9 (e : ExploreObj) (h1 : e.cls = .ping) (h2 : e.type = "ping_explore") :
    PingExplore.from_dict e.to_dict.1 e.to_dict.2 = e := by
  cases e
  subst h1
  subst h2
  rfl

/-- Witness for C9 at the baseline ping explore of tests/test_lookml.py. -/
theorem claim_C9_witness :
    PingExplore.from_dict
      (ExploreObj.to_dict
        { cls := .ping, name := "baseline", type := "ping_explore",
          views := [("base_view", "baseline")] }).1
      (ExploreObj.to_dict
        { cls := .ping, name := "baseline", type := "ping_explore",
          views := [("base_view", "baseline")] }).2 =
      { cls := .ping, name := "baseline", type := "ping_explore",
        views := [("base_view", "baseline")] } :=
  claim_C9
    { cls := .ping, name := "baseline", type := "ping_explore",
      views := [("base_view", "baseline")] } rfl rfl

/-- C10: GrowthAccountingExplore overrides neither to_lookml nor from_dict, so
to_lookml on any growth accounting explore, in particular on every explore
produced by GrowthAccountingExplore.from_views, raises NotImplementedError, as
does the from_dict of that class. -/
theorem claim_C10 :
    (∀ e : ExploreObj, e.cls = .growthAccounting →
      e.to_lookml = .error "NotImplementedError: Only implemented in subclasses") ∧
    (∀ (vs : List View0) (e : ExploreObj), e ∈ GrowthAccountingExplore.from_views vs →
      e.to_lookml = .error "NotImplementedError: Only implemented in subclasses") ∧
    (∀ (nm : String) (defn : ExploreDefn),
      Explore.from_dict .growthAccounting nm defn =
        .error "NotImplementedError: Only implemented in subclasses") := by
  refine ⟨?_, ?_, ?_⟩
  · intro e h
    cases e
    subst h
    rfl
  · intro vs
    induction vs with
    | nil => intro e h; simp [GrowthAccountingExplore.from_views] at h
    | cons v vs ih =>
      intro e h
      by_cases hv : v.name = "growth_accounting" <;>
        simp [GrowthAccountingExplore.from_views, hv] at h
      · rcases h with h | h
        · subst h; rfl
        · exact ih e h
      · exact ih e h
  · intro nm defn; rfl

/-- Witness for C10: the fixed growth accounting explore, an explore produced
by from_views on a growth_accounting view, and a from_dict call all raise. -/
theorem claim_C10_witness :
    ExploreObj.to_lookml
        { cls := .growthAccounting, name := "growth_accounting",
          type := "growth_accounting_explore", views := [] } =
      .error "NotImplementedError: Only implemented in subclasses" ∧
    ExploreObj.to_lookml growthAccountingFixed =
      .error "NotImplementedError: Only implemented in subclasses" ∧
    Explore.from_dict .growthAccounting "growth_accounting"
        { type := "growth_accounting_explore",
          views := [("base_view", "growth_accounting")] } =
      .error "NotImplementedError: Only implemented in subclasses" := by
  refine ⟨?_, ?_, ?_⟩
  · exact claim_C10.1
      { cls := .growthAccounting, name := "growth_accounting",
        type := "growth_accounting_explore", views := [] } rfl
  · exact claim_C10.2.1 [{ name := "growth_accounting", view_type := "ping_view" }]
      growthAccountingFixed (by decide)
  · exact claim_C10.2.2 "growth_accounting"
      { type := "growth_accounting_explore", views := [("base_view", "growth_accounting")] }

/-- Folding insertDim errors with the first duplicate name found by
firstDupDim relative to the accumulated names. -/
theorem insertDims_error_of_firstDup (table : String) :
    ∀ (ds acc : List GeneratedDim) (n : String),
      firstDupDim (acc.map GeneratedDim.name) (ds.map GeneratedDim.name) = some n →
      insertDims table acc ds = .error (dupMsg "dimension" n table) := by
  intro ds
  induction ds with
  | nil => intro acc n h; simp [firstDupDim] at h
  | cons d ds ih =>
    intro acc n h
    by_cases hm : d.name ∈ acc.map GeneratedDim.name
    · by_cases hs : d.name = "submission"
      · simp only [List.map_cons, firstDupDim, if_pos hm, if_pos hs] at h
        have hstep : insertDims table acc (d :: ds) = insertDims table acc ds := by
          simp only [insertDims, insertDim, if_pos hm, if_pos hs]
        rw [hstep]
        exact ih acc n h
      · simp only [List.map_cons, firstDupDim, if_pos hm, if_neg hs,
          Option.some.injEq] at h
        subst h
        simp only [insertDims, insertDim, if_pos hm, if_neg hs]
    · simp only [List.map_cons, firstDupDim, if_neg hm] at h
      have hstep : insertDims table acc (d :: ds) = insertDims table (acc ++ [d]) ds := by
        simp only [insertDims, insertDim, if_neg hm]
      rw [hstep]
      exact ih (acc ++ [d]) n (by simpa using h)

/-- Folding insertMeasure errors with the first duplicate name found by
firstDupSimple relative to the accumulated names. -/
theorem insertMeasures_error_of_firstDup (table : String) :
    ∀ (ms acc : List Measure) (n : String),
      firstDupSimple (acc.map Measure.name) (ms.map Measure.name) = some n →
      insertMeasures table acc ms = .error (dupMsg "measure" n table) := by
  intro ms
  induction ms with
  | nil => intro acc n h; simp [firstDupSimple] at h
  | cons m ms ih =>
    intro acc n h
    by_cases hm : m.name ∈ acc.map Measure.name
    · simp only [List.map_cons, firstDupSimple, if_pos hm, Option.some.injEq] at h
      subst h
      simp only [insertMeasures, insertMeasure, if_pos hm]
    · simp only [List.map_cons, firstDupSimple, if_neg hm] at h
      have hstep : insertMeasures table acc (m :: ms) = insertMeasures table (acc ++ [m]) ms := by
        simp only [insertMeasures, insertMeasure, if_neg hm]
      rw [hstep]
      exact ih (acc ++ [m]) n (by simpa using h)

/-- C1 (amended): whenever the declarations generated from a table schema
contain a second field declaration with an already declared name — other than
the tolerated duplicate dimension group name submission — dimension generation
stops at the first such conflict with the error duplicate dimension
(quote)name(quote) for table (quote)table(quote), and likewise a second
derived measure with an already declared measure name stops measure generation
with the corresponding duplicate measure error. -/
theorem claim_C1 (table : String) :
    (∀ (schema : SchemaFields) (n : String),
      firstDupDim [] (dimDeclaredNames schema) = some n →
      generateDimensions table schema = .error (dupMsg "dimension" n table)) ∧
    (∀ (dims : List GeneratedDim) (n : String),
      firstDupSimple [] ((measureStream dims).map Measure.name) = some n →
      generateMeasures table dims = .error (dupMsg "measure" n table)) := by
  constructor
  · intro schema n h
    apply insertDims_error_of_firstDup
    simpa [dimDeclaredNames, List.map_map, Function.comp] using h
  · intro dims n h
    apply insertMeasures_error_of_firstDup
    simpa using h

/-- Witness for C1 at the two failing tables of tests/test_lookml.py: the
duplicate dimension parsed and the duplicate measure clients. -/
theorem claim_C1_witness :
    generateDimensions "mozdata.fail.duplicate_dimension" duplicateDimSchema =
      .error (dupMsg "dimension" "parsed" "mozdata.fail.duplicate_dimension") ∧
    generateMeasures "mozdata.fail.duplicate_measure" duplicateMeasureDims =
      .error (dupMsg "measure" "clients" "mozdata.fail.duplicate_measure") := by
  constructor
  · exact (claim_C1 "mozdata.fail.duplicate_dimension").1 duplicateDimSchema "parsed" (by decide)
  · exact (claim_C1 "mozdata.fail.duplicate_measure").2 duplicateMeasureDims "clients" (by decide)

/-- Counterexample for C1 as frozen: a table holding submission_timestamp and
submission_date produces two field declarations of the same kind (both are
dimension groups) with the same declared name submission, yet generation
succeeds, keeping the earlier declaration — no duplicate dimension error and
no non-zero exit, as pinned by the glean-app expectation of test_lookml. -/
theorem claim_C1_counterexample :
    dimDeclaredNames submissionSchema = ["submission", "submission"] ∧
    (genDimension ["submission_timestamp"] .TIMESTAMP).isTimeGroup = true ∧
    (genDimension ["submission_date"] .DATE).isTimeGroup = true ∧
    generateDimensions "mozdata.glean_app.baseline" submissionSchema =
      .ok [{ name := "submission", sql := "${TABLE}.submission_timestamp",
             type := some "time", timeframes := some timestampTimeframes }] := by
  decide

/-- A successful insertMeasures fold keeps every streamed measure: the result
is the accumulator followed by the whole stream. -/
theorem insertMeasures_ok_eq (table : String) :
    ∀ (ms acc out : List Measure),
      insertMeasures table acc ms = .ok out → out = acc ++ ms := by
  intro ms
  induction ms with
  | nil =>
    intro acc out h
    simp only [insertMeasures] at h
    cases h
    simp
  | cons m ms ih =>
    intro acc out h
    by_cases hm : m.name ∈ acc.map Measure.name
    · simp only [insertMeasures, insertMeasure, if_pos hm] at h
      cases h
    · simp only [insertMeasures, insertMeasure, if_neg hm] at h
      have h2 := ih (acc ++ [m]) out h
      simpa using h2

/-- The measure derived from a dimension is ping_count exactly when the
dimension is named document_id. -/
theorem measureForDim_eq_pingCount (d : GeneratedDim) :
    measureForDim d = some pingCountMeasure ↔ d.name = "document_id" := by
  constructor
  · intro h
    unfold measureForDim at h
    by_cases h1 : d.name = "client_id" ∨ d.name = "client_info__client_id"
    · rw [if_pos h1] at h
      simp [pingCountMeasure] at h
    · rw [if_neg h1] at h
      by_cases h2 : d.name = "document_id"
      · exact h2
      · rw [if_neg h2] at h
        cases h
  · intro h
    have h1 : ¬(d.name = "client_id" ∨ d.name = "client_info__client_id") := by
      rw [h]; decide
    unfold measureForDim
    rw [if_neg h1, if_pos h]

/-- C5 (amended): whenever view generation succeeds, the ping_count count
measure (no SQL) is among the view measures exactly when the view declares a
field named document_id — in both directions: a view holding such a field
carries ping_count, and a view without one (whatever its type or number of
backing channel tables) has no ping_count measure. -/
theorem claim_C5 (vname : String) (tables : List (String × String))
    (schema : SchemaFields) (v : View)
    (hv : generateView vname tables schema = .ok v) :
    (pingCountMeasure ∈ v.measures ↔
      ∃ d, (d ∈ v.dimensions ∨ d ∈ v.dimension_groups) ∧ d.name = "document_id") := by
  unfold generateView at hv
  split at hv
  · simp at hv
  · rename_i dims h1
    split at hv
    · simp at hv
    · rename_i ms h2
      cases hv
      have hms : ms = measureStream dims := by
        unfold generateMeasures at h2
        have h3 := insertMeasures_ok_eq (firstTableName tables) (measureStream dims) [] ms h2
        simpa using h3
      show pingCountMeasure ∈ ms ↔
        ∃ d, (d ∈ dims.filter (fun d => !d.isTimeGroup) ∨
              d ∈ dims.filter (fun d => d.isTimeGroup)) ∧ d.name = "document_id"
      rw [hms]
      constructor
      · intro hin
        obtain ⟨d, hd, hfd⟩ := List.mem_filterMap.mp hin
        refine ⟨d, ?_, (measureForDim_eq_pingCount d).mp hfd⟩
        by_cases hg : d.isTimeGroup
        · exact Or.inr (List.mem_filter.mpr ⟨hd, hg⟩)
        · exact Or.inl (List.mem_filter.mpr ⟨hd, by simp [hg]⟩)
      · rintro ⟨d, hd | hd, hname⟩
        · exact List.mem_filterMap.mpr
            ⟨d, List.mem_of_mem_filter hd, (measureForDim_eq_pingCount d).mpr hname⟩
        · exact List.mem_filterMap.mpr
            ⟨d, List.mem_of_mem_filter hd, (measureForDim_eq_pingCount d).mpr hname⟩

/-- Witness for C5 exercising both directions at the two views of
tests/test_lookml.py: the custom view declares document_id and carries
ping_count; the glean-app view declares none and has no ping_count. -/
theorem claim_C5_witness :
    pingCountMeasure ∈ customExpectedView.measures ∧
    pingCountMeasure ∉ gleanExpectedView.measures := by
  constructor
  · exact (claim_C5 "baseline" [("release", "mozdata.custom.baseline")] customSchema
      customExpectedView (by decide)).mpr
      ⟨{ name := "document_id", sql := "${TABLE}.document_id", hidden := some "yes" },
        Or.inl (by decide), rfl⟩
  · intro hmem
    obtain ⟨d, hd, hn⟩ :=
      (claim_C5 "baseline" gleanTables gleanSchema gleanExpectedView (by decide)).mp hmem
    rcases hd with hd | hd
    · fin_cases hd <;> exact absurd hn (by decide)
    · fin_cases hd <;> exact absurd hn (by decide)

/-- Counterexample for C5 as frozen: the glean-app baseline view is a ping
view backed by two channel tables, generation succeeds, yet its measures are
exactly the clients measure — ping_count is absent because its schema has no
document_id column, as pinned by the glean-app expectation of test_lookml. -/
theorem claim_C5_counterexample :
    generateView "baseline" gleanTables gleanSchema = .ok gleanExpectedView ∧
    pingCountMeasure ∉ gleanExpectedView.measures := by decide

/-- C6 (amended): every leaf flattened out of a schema tree declares the
double-underscore join of its root-to-leaf path as its name; for DATE and
TIMESTAMP leaves a trailing recognized date or time suffix is stripped from
that name; and every leaf with at least two record ancestors carries the
group_label (ancestor segments humanized, space joined) and group_item_label
(humanized final segment). -/
theorem claim_C6 (pre : List String) (f : SchemaField) (p : List String) (t : BQType)
    (hp : (p, t) ∈ flattenField pre f) :
    (lookerType t ≠ "time" → (genDimension p t).name = joinSep "__" p) ∧
    (lookerType t = "time" → (genDimension p t).name = stripTimeSuffix (joinSep "__" p)) ∧
    (3 ≤ p.length →
      (genDimension p t).group_label = some (groupLabelOf p) ∧
      (genDimension p t).group_item_label = some (humanize (p.getLastD ""))) := by
  refine ⟨?_, ?_, ?_⟩
  · intro ht
    by_cases ph : p ∈ hiddenPaths <;> simp [genDimension, ht, ph]
  · intro ht
    simp [genDimension, ht]
  · intro hlen
    have ph : p ∉ hiddenPaths := by
      intro hmem
      have hcases : p = ["client_id"] ∨ p = ["client_info", "client_id"] ∨
          p = ["document_id"] := by simpa [hiddenPaths] using hmem
      rcases hcases with h | h | h <;> subst h <;> simp at hlen
    have h2 : 2 ≤ p.length := by omega
    by_cases ht : lookerType t = "time" <;> simp [genDimension, ht, ph, h2]

/-- Witness for C6 at two leaves of the glean-app schema: the triple-nested
country dimension (full join name plus group labels) and the date-suffixed
DATE leaf under client_info (stripped name). -/
theorem claim_C6_witness :
    ((genDimension ["metadata", "geo", "country"] .STRING).name =
        joinSep "__" ["metadata", "geo", "country"] ∧
      (genDimension ["metadata", "geo", "country"] .STRING).group_label =
        some (groupLabelOf ["metadata", "geo", "country"]) ∧
      (genDimension ["metadata", "geo", "country"] .STRING).group_item_label =
        some (humanize (["metadata", "geo", "country"].getLastD ""))) ∧
    (genDimension ["client_info", "parsed_first_run_date"] .DATE).name =
      stripTimeSuffix (joinSep "__" ["client_info", "parsed_first_run_date"]) := by
  constructor
  · have h := claim_C6 []
      (.record "metadata" (.cons (.record "geo" (.cons (.leaf "country" .STRING) .nil)) .nil))
      ["metadata", "geo", "country"] .STRING (by decide)
    exact ⟨h.1 (by decide), (h.2.2 (by decide)).1, (h.2.2 (by decide)).2⟩
  · have h := claim_C6 []
      (.record "client_info" (.cons (.leaf "parsed_first_run_date" .DATE) .nil))
      ["client_info", "parsed_first_run_date"] .DATE (by decide)
    exact h.2.1 (by decide)

/-- Counterexample for C6 as frozen: the STRING leaf metadata.header.date has
final path segment literally date, yet its declared name keeps the full join
metadata__header__date with the date suffix intact (the claim required the
trailing suffix stripped), exactly as pinned by the glean-app expectation of
test_lookml. -/
theorem claim_C6_counterexample :
    (genDimension ["metadata", "header", "date"] .STRING).name = "metadata__header__date" ∧
    strEndsWith (genDimension ["metadata", "header", "date"] .STRING).name "date" = true := by
  decide

/-- Looking up a freshly written file yields its content. -/
theorem lookupFile_setFile_self :
    ∀ (l : List (List String × String)) (p : List String) (c : String),
      lookupFile (setFile l p c) p = some c := by
  intro l
  induction l with
  | nil => intro p c; simp [setFile, lookupFile]
  | cons e rest ih =>
    intro p c
    obtain ⟨q, c0⟩ := e
    by_cases h : q = p <;> simp [setFile, lookupFile, h, ih]

/-- Writing one file leaves every other path unchanged. -/
theorem lookupFile_setFile_other :
    ∀ (l : List (List String × String)) (p q : List String) (c : String), q ≠ p →
      lookupFile (setFile l q c) p = lookupFile l p := by
  intro l
  induction l with
  | nil => intro p q c h; simp [setFile, lookupFile, h]
  | cons e rest ih =>
    intro p q c h
    obtain ⟨r, c0⟩ := e
    by_cases hr : r = q <;> simp [setFile, lookupFile, hr, h, ih p q c h]

/-- A path holds a file after one write exactly when it held one before or it
is the written path. -/
theorem isSome_lookupFile_setFile (l : List (List String × String)) (p q : List String)
    (c : String) :
    (lookupFile (setFile l q c) p).isSome = true ↔
      (lookupFile l p).isSome = true ∨ p = q := by
  by_cases h : q = p
  · subst h
    simp [lookupFile_setFile_self l q c]
  · have h2 : ¬p = q := fun hh => h hh.symm
    rw [lookupFile_setFile_other l p q c h]
    simp [h2]

/-- Membership in the directories after an idempotent directory creation. -/
theorem mem_dirs_mkdir (fs : FS) (q p : List String) :
    p ∈ (fs.mkdirIfAbsent q).dirs ↔ p ∈ fs.dirs ∨ p = q := by
  by_cases h : q ∈ fs.dirs
  · simp only [FS.mkdirIfAbsent, if_pos h]
    constructor
    · exact Or.inl
    · rintro (hp | rfl)
      · exact hp
      · exact h
  · simp [FS.mkdirIfAbsent, if_neg h]

/-- Directory creation does not touch files. -/
theorem files_mkdir (fs : FS) (q : List String) :
    (fs.mkdirIfAbsent q).files = fs.files := by
  by_cases h : q ∈ fs.dirs <;> simp [FS.mkdirIfAbsent, h]

/-- Files after generating one namespace tree: only its model file is written. -/
theorem files_genNs (root : List String) (fs : FS) (ns : String × String) :
    (generateNamespaceDir root fs ns).files =
      setFile fs.files (nsModelPath root ns.1) (modelContent ns.1 ns.2) := by
  simp [generateNamespaceDir, FS.writeFileAt, files_mkdir]

/-- Directories after generating one namespace tree. -/
theorem dirs_genNs (root : List String) (fs : FS) (ns : String × String) (p : List String) :
    p ∈ (generateNamespaceDir root fs ns).dirs ↔ p ∈ fs.dirs ∨ p ∈ nsDirs root ns.1 := by
  simp only [generateNamespaceDir, FS.writeFileAt, mem_dirs_mkdir, nsDirs, List.mem_cons,
    List.mem_singleton, List.not_mem_nil]
  tauto

/-- Lookup of any path that is no model file path is untouched by
generate_directories. -/
theorem gen_files_lookup (root : List String) :
    ∀ (nss : List (String × String)) (fs : FS) (p : List String),
      p ∉ modelFilePaths nss root →
      lookupFile (generate_directories nss root fs).files p = lookupFile fs.files p := by
  intro nss
  induction nss with
  | nil => intro fs p _; rfl
  | cons ns rest ih =>
    intro fs p h
    rw [show modelFilePaths (ns :: rest) root =
      nsModelPath root ns.1 :: modelFilePaths rest root from rfl] at h
    simp only [List.mem_cons, not_or] at h
    calc lookupFile (generate_directories (ns :: rest) root fs).files p
        = lookupFile (generate_directories rest root (generateNamespaceDir root fs ns)).files p :=
          rfl
      _ = lookupFile (generateNamespaceDir root fs ns).files p := ih _ p h.2
      _ = lookupFile fs.files p := by
          rw [files_genNs]
          exact lookupFile_setFile_other _ p _ _ (fun hh => h.1 hh.symm)

/-- A path holds a file after generate_directories exactly when it held one
before or it is a model file path. -/
theorem gen_files_isSome (root : List String) :
    ∀ (nss : List (String × String)) (fs : FS) (p : List String),
      (lookupFile (generate_directories nss root fs).files p).isSome = true ↔
        (lookupFile fs.files p).isSome = true ∨ p ∈ modelFilePaths nss root := by
  intro nss
  induction nss with
  | nil => intro fs p; simp [generate_directories, modelFilePaths]
  | cons ns rest ih =>
    intro fs p
    rw [show generate_directories (ns :: rest) root fs =
      generate_directories rest root (generateNamespaceDir root fs ns) from rfl]
    rw [ih]
    rw [files_genNs, isSome_lookupFile_setFile]
    rw [show modelFilePaths (ns :: rest) root =
      nsModelPath root ns.1 :: modelFilePaths rest root from rfl]
    simp only [List.mem_cons]
    tauto

/-- A path is a directory after generate_directories exactly when it was one
before or it belongs to some namespace tree. -/
theorem gen_dirs_mem (root : List String) :
    ∀ (nss : List (String × String)) (fs : FS) (p : List String),
      p ∈ (generate_directories nss root fs).dirs ↔
        p ∈ fs.dirs ∨ ∃ ns ∈ nss, p ∈ nsDirs root ns.1 := by
  intro nss
  induction nss with
  | nil => intro fs p; simp [generate_directories]
  | cons ns rest ih =>
    intro fs p
    rw [show generate_directories (ns :: rest) root fs =
      generate_directories rest root (generateNamespaceDir root fs ns) from rfl]
    rw [ih, dirs_genNs]
    simp only [List.mem_cons]
    constructor
    · rintro ((hf | hn) | ⟨a, ha, hd⟩)
      · exact Or.inl hf
      · exact Or.inr ⟨ns, Or.inl rfl, hn⟩
      · exact Or.inr ⟨a, Or.inr ha, hd⟩
    · rintro (hf | ⟨a, (rfl | ha), hd⟩)
      · exact Or.inl (Or.inl hf)
      · exact Or.inl (Or.inr hd)
      · exact Or.inr ⟨a, ha, hd⟩

/-- C7: re-running generate_directories over an existing output tree holding
an extra unrelated file leaves that file present with its content unchanged;
and the tree generated for each namespace contains exactly the views,
explores, dashboards subdirectories and the namespace model file. -/
theorem claim_C7 (nss : List (String × String)) (root : List String) (fs : FS)
    (p : List String) (c : String) :
    (p ∉ modelFilePaths nss root →
      lookupFile (generate_directories nss root
        ((generate_directories nss root fs).writeFileAt p c)).files p = some c) ∧
    (∀ nm label sub, (nm, label) ∈ nss →
      ((root ++ [nm, sub]) ∈ (generate_directories nss root FS.emptyFS).dirs ↔
        sub = "views" ∨ sub = "explores" ∨ sub = "dashboards") ∧
      ((lookupFile (generate_directories nss root FS.emptyFS).files
          (root ++ [nm, sub])).isSome = true ↔ sub = nm ++ ".model.lkml")) := by
  constructor
  · intro hp
    rw [gen_files_lookup root nss _ p hp]
    exact lookupFile_setFile_self _ p c
  · intro nm label sub hmem
    constructor
    · rw [gen_dirs_mem]
      constructor
      · rintro (hd | ⟨ns, _, hdir⟩)
        · simp [FS.emptyFS] at hd
        · simp only [nsDirs, List.mem_cons, List.mem_singleton, List.not_mem_nil,
            or_false] at hdir
          rcases hdir with h | h | h | h
          · exfalso
            have hl := congrArg List.length h
            simp at hl
          · have h2 : [nm, sub] = [ns.1, "views"] := List.append_cancel_left h
            simp only [List.cons.injEq, and_true] at h2
            exact Or.inl h2.2
          · have h2 : [nm, sub] = [ns.1, "explores"] := List.append_cancel_left h
            simp only [List.cons.injEq, and_true] at h2
            exact Or.inr (Or.inl h2.2)
          · have h2 : [nm, sub] = [ns.1, "dashboards"] := List.append_cancel_left h
            simp only [List.cons.injEq, and_true] at h2
            exact Or.inr (Or.inr h2.2)
      · intro hsub
        refine Or.inr ⟨(nm, label), hmem, ?_⟩
        rcases hsub with rfl | rfl | rfl <;> simp [nsDirs]
    · rw [gen_files_isSome]
      constructor
      · rintro (h | h)
        · simp [FS.emptyFS, lookupFile] at h
        · simp only [modelFilePaths, List.mem_map] at h
          obtain ⟨ns, _, heq⟩ := h
          have h2 : [ns.1, ns.1 ++ ".model.lkml"] = [nm, sub] :=
            List.append_cancel_left (heq : root ++ [ns.1, ns.1 ++ ".model.lkml"] = root ++ [nm, sub])
          simp only [List.cons.injEq, and_true] at h2
          rw [← h2.2, h2.1]
      · intro h
        subst h
        refine Or.inr ?_
        simp only [modelFilePaths, List.mem_map]
        exact ⟨(nm, label), hmem, rfl⟩

/-- Witness for C7 at the namespace mapping and extra file of
tests/test_spoke.py (test_existing_dir): the tmp-file written into the
glean-app tree survives a second run unchanged, and the glean-app tree holds
exactly views, explores, dashboards and glean-app.model.lkml. -/
theorem claim_C7_witness :
    lookupFile (generate_directories [("glean-app", "Glean App")] []
      ((generate_directories [("glean-app", "Glean App")] [] FS.emptyFS).writeFileAt
        ["glean-app", "tmp-file"] "hello, world")).files ["glean-app", "tmp-file"] =
      some "hello, world" ∧
    ((([] : List String) ++ ["glean-app", "views"]) ∈
        (generate_directories [("glean-app", "Glean App")] [] FS.emptyFS).dirs ↔
      "views" = "views" ∨ "views" = "explores" ∨ "views" = "dashboards") ∧
    ((lookupFile (generate_directories [("glean-app", "Glean App")] [] FS.emptyFS).files
        (([] : List String) ++ ["glean-app", "tmp-file"])).isSome = true ↔
      "tmp-file" = "glean-app" ++ ".model.lkml") := by
  refine ⟨?_, ?_, ?_⟩
  · exact (claim_C7 [("glean-app", "Glean App")] [] FS.emptyFS
      ["glean-app", "tmp-file"] "hello, world").1 (by decide)
  · exact ((claim_C7 [("glean-app", "Glean App")] [] FS.emptyFS
      ["glean-app", "tmp-file"] "hello, world").2 "glean-app" "Glean App" "views"
      (by decide)).1
  · exact ((claim_C7 [("glean-app", "Glean App")] [] FS.emptyFS
      ["glean-app", "tmp-file"] "hello, world").2 "glean-app" "Glean App" "tmp-file"
      (by decide)).2
